import Mathlib

/-!
Shallow embedding of the guv cooperative I/O layer (`guv/greenio.py` and
`guv/hubs/hub.py`).

The OS and the event hub are modelled as oracles: lists of responses that the
code consumes in order.  Each modelled operation returns, besides its Python
outcome (a returned value or a raised exception), the final `_closed` flag of
the wrapper, the number of primary OS calls it issued, and the log of calls it
made to the external suspend primitive `trampoline` (with the `read`/`write`/
`timeout` arguments it passed).  When an oracle list is exhausted, or an oracle
entry violates the documented contract of the external primitive (a timeout
outcome from a wait that was given no deadline), the run ends with the marker
outcome `invalidTrace`; no theorem below relies on such traces.

Machine floats used for timeouts and clock readings are modelled as rationals:
none of the specified behaviour depends on rounding.
-/

namespace Guv

/-! ### Errno constants (Linux numbering; only membership in the tables below
matters) and the platform-partitioned classification tables of `greenio.py`. -/

def EAGAIN : Nat := 11
def EWOULDBLOCK : Nat := 11
def ENOTCONN : Nat := 107
def ECONNRESET : Nat := 104
def ESHUTDOWN : Nat := 108
def EPIPE : Nat := 32
def EINPROGRESS : Nat := 115
def EALREADY : Nat := 114
def EISCONN : Nat := 106
def EBADFD : Nat := 77
def EINVAL : Nat := 22
def ECONNREFUSED : Nat := 111
def WSAEINVAL : Nat := 10022

inductive Platform where
  | win
  | posix
deriving DecidableEq, Repr

/-- `CONNECT_ERR`: codes treated as "connect in progress, would need to wait";
on Windows the set additionally contains `WSAEINVAL`. -/
def CONNECT_ERR (p : Platform) : List Nat :=
  match p with
  | .win => [EINPROGRESS, EALREADY, EWOULDBLOCK, WSAEINVAL]
  | .posix => [EINPROGRESS, EALREADY, EWOULDBLOCK]

/-- `CONNECT_SUCCESS`: the zero/no-error code and "already connected". -/
def CONNECT_SUCCESS : List Nat := [0, EISCONN]

/-- `SOCKET_BLOCKING`: the would-block class; on POSIX an unconnected socket
(`ENOTCONN`) is treated the same as would-block. -/
def SOCKET_BLOCKING (p : Platform) : List Nat :=
  match p with
  | .win => [EAGAIN, EWOULDBLOCK]
  | .posix => [EAGAIN, EWOULDBLOCK, ENOTCONN]

/-- `SOCKET_CLOSED`: the peer-closed class. -/
def SOCKET_CLOSED (p : Platform) : List Nat :=
  match p with
  | .win => [ECONNRESET, ENOTCONN, ESHUTDOWN]
  | .posix => [ECONNRESET, ESHUTDOWN, EPIPE]

def BUFFER_SIZE : Nat := 4096

/-! ### Oracles and instrumented results -/

/-- Byte strings are lists of byte values. -/
abbrev Bytes := List Nat

/-- One OS response: a successful return value or a raised OS error
(`socket.error` / `OSError`) carrying an errno. -/
inductive OSRes (α : Type) where
  | ok (v : α)
  | err (e : Nat)
deriving DecidableEq, Repr

/-- One outcome of a call to the external suspend primitive `trampoline`:
the descriptor became ready, the hub raised the closed signal `IOClosed`,
or the supplied timeout expired (raising the supplied timeout error). -/
inductive TrampRes where
  | ready
  | ioClosed
  | timedOut
deriving DecidableEq, Repr

/-- The arguments of one actual call to the external `trampoline` primitive:
the `read=`/`write=` direction flags and the `timeout=` deadline passed
(`none` = no deadline). -/
structure TrampCall where
  rd : Bool
  wr : Bool
  tmo : Option ℚ
deriving DecidableEq, Repr

/-- The Python-level outcome of a modelled operation: a returned value, or one
of the raised exception shapes that occur in this code base, or the marker for
an exhausted / out-of-contract oracle trace. -/
inductive PyOutcome (α : Type) where
  | ok (v : α)
  | osErr (e : Nat)
  | timeoutErr
  | eofErr
  | ioClosedErr
  | ioErr (e : Nat)
  | typeErr
  | valueErr
  | invalidTrace
deriving DecidableEq, Repr

/-- Instrumented result of a modelled operation. -/
structure RunResult (α : Type) where
  outcome : PyOutcome α
  closedAfter : Bool
  osCalls : Nat
  tramps : List TrampCall
deriving DecidableEq, Repr

/-! ### GreenSocket state -/

/-- The logical state of a `GreenSocket` relevant to its suspend/retry loops:
the `act_non_blocking` flag, the logical timeout `_timeout` (`none` =
logically infinite), and the `_closed` flag set by `_mark_as_closed`. -/
structure GSState where
  act_non_blocking : Bool
  timeout : Option ℚ
  closedFlag : Bool
deriving DecidableEq, Repr

/-- Direct delegation to one OS call (the `act_non_blocking` bypass): exactly
one OS call whose value or error is passed through verbatim, no suspension. -/
def delegate {α : Type} (closedFlag : Bool) : List (OSRes α) → RunResult α
  | [] => ⟨.invalidTrace, closedFlag, 0, []⟩
  | .ok v :: _ => ⟨.ok v, closedFlag, 1, []⟩
  | .err e :: _ => ⟨.osErr e, closedFlag, 1, []⟩

/-! ### GreenSocket.recv -/

/-- The suspending loop of `GreenSocket.recv`: try the OS recv; a would-block
class error falls through to `self._trampoline(fileno, read=True,
timeout=self.gettimeout(), timeout_exc=socket.timeout)` and retries; a
peer-closed class error returns an empty result; any other error propagates.
`_trampoline` raises `IOClosed` at once when the wrapper is already marked
closed, and marks it closed when the hub raises `IOClosed`; `recv` catches
`IOClosed` around the wait and raises `EOFError`. -/
def recvLoop (p : Platform) (tmo : Option ℚ) (closedFlag : Bool) :
    List (OSRes Bytes) → List TrampRes → RunResult Bytes
  | [], _ => ⟨.invalidTrace, closedFlag, 0, []⟩
  | .ok v :: _, _ => ⟨.ok v, closedFlag, 1, []⟩
  | .err e :: osRest, hubTr =>
    if e ∈ SOCKET_BLOCKING p then
      if closedFlag then ⟨.eofErr, closedFlag, 1, []⟩
      else
        match hubTr with
        | [] => ⟨.invalidTrace, closedFlag, 1, []⟩
        | .ready :: hubRest =>
          let r := recvLoop p tmo closedFlag osRest hubRest
          ⟨r.outcome, r.closedAfter, r.osCalls + 1, ⟨true, false, tmo⟩ :: r.tramps⟩
        | .ioClosed :: _ => ⟨.eofErr, true, 1, [⟨true, false, tmo⟩]⟩
        | .timedOut :: _ => ⟨.timeoutErr, closedFlag, 1, [⟨true, false, tmo⟩]⟩
    else if e ∈ SOCKET_CLOSED p then ⟨.ok [], closedFlag, 1, []⟩
    else ⟨.osErr e, closedFlag, 1, []⟩

/-- `GreenSocket.recv`: the `act_non_blocking` bypass delegates directly to the
OS recv, otherwise the suspending loop runs. -/
def GreenSocket.recv (p : Platform) (s : GSState) (osTr : List (OSRes Bytes))
    (hubTr : List TrampRes) : RunResult Bytes :=
  if s.act_non_blocking then delegate s.closedFlag osTr
  else recvLoop p s.timeout s.closedFlag osTr hubTr

/-! ### setblocking / settimeout / gettimeout -/

/-- `GreenSocket.setblocking`. -/
def GreenSocket.setblocking (s : GSState) (flag : Bool) : GSState :=
  if flag then { s with act_non_blocking := false, timeout := none }
  else { s with act_non_blocking := true, timeout := some 0 }

/-- The argument passed to `settimeout`: `None`, the global default sentinel,
a numeric value (anything exposing `__float__`), or a non-numeric object. -/
inductive TimeoutArg where
  | noneArg
  | defaultArg
  | num (q : ℚ)
  | nonNumeric
deriving DecidableEq, Repr

/-- Outcome of `settimeout`: normal return, or a raised `ValueError` /
`TypeError`. -/
inductive SetTimeoutRes where
  | okSet
  | valueErr
  | typeErr
deriving DecidableEq, Repr

/-- `GreenSocket.settimeout`, returning the outcome together with the state
after the call (unchanged when an exception is raised, since both checks
precede any assignment). -/
def GreenSocket.settimeout (s : GSState) (arg : TimeoutArg) :
    SetTimeoutRes × GSState :=
  match arg with
  | .noneArg => (.okSet, GreenSocket.setblocking s true)
  | .defaultArg => (.okSet, GreenSocket.setblocking s true)
  | .nonNumeric => (.typeErr, s)
  | .num q =>
    if q < 0 then (.valueErr, s)
    else if q = 0 then
      (.okSet, { s with act_non_blocking := true, timeout := some 0 })
    else (.okSet, { s with act_non_blocking := false, timeout := some q })

/-- `GreenSocket.gettimeout`. -/
def GreenSocket.gettimeout (s : GSState) : Option ℚ := s.timeout

/-! ### GreenSocket.send (the wired-up `_old_send` variant) -/

/-- The suspending loop of `_old_send`: try to send the remaining suffix,
swallowing would-block class errors and propagating any other; stop when the
whole buffer has been accepted; otherwise wait for write readiness bounded by
the logical timeout, turning a closed signal into a "connection reset" error.
The oracle entry gives the OS response of one `sock.send` call (bytes accepted
or errno). -/
def sendLoop (p : Platform) (tmo : Option ℚ) (closedFlag : Bool)
    (lenData totalSent : Nat) :
    List (OSRes Nat) → List TrampRes → RunResult Nat
  | [], _ => ⟨.invalidTrace, closedFlag, 0, []⟩
  | r :: osRest, hubTr =>
    match (match r with
           | .ok n => Sum.inl (totalSent + n)
           | .err e =>
             if e ∈ SOCKET_BLOCKING p then Sum.inl totalSent else Sum.inr e :
           Nat ⊕ Nat) with
    | .inr e => ⟨.osErr e, closedFlag, 1, []⟩
    | .inl tot =>
      if tot = lenData then ⟨.ok tot, closedFlag, 1, []⟩
      else if closedFlag then ⟨.osErr ECONNRESET, closedFlag, 1, []⟩
      else
        match hubTr with
        | [] => ⟨.invalidTrace, closedFlag, 1, []⟩
        | .ready :: hubRest =>
          let rr := sendLoop p tmo closedFlag lenData tot osRest hubRest
          ⟨rr.outcome, rr.closedAfter, rr.osCalls + 1, ⟨false, true, tmo⟩ :: rr.tramps⟩
        | .ioClosed :: _ => ⟨.osErr ECONNRESET, true, 1, [⟨false, true, tmo⟩]⟩
        | .timedOut :: _ => ⟨.timeoutErr, closedFlag, 1, [⟨false, true, tmo⟩]⟩

/-- `GreenSocket.send` (`send = _old_send`): the `act_non_blocking` bypass
delegates directly, otherwise the full-buffer send loop runs on a buffer of
`lenData` bytes. -/
def GreenSocket.send (p : Platform) (s : GSState) (lenData : Nat)
    (osTr : List (OSRes Nat)) (hubTr : List TrampRes) : RunResult Nat :=
  if s.act_non_blocking then delegate s.closedFlag osTr
  else sendLoop p s.timeout s.closedFlag lenData 0 osTr hubTr

/-! ### Low-level connect helper and GreenSocket.connect / connect_ex -/

/-- Classification of one OS `connect_ex` code by `socket_connect`: report
"would need to wait", report success, or raise the code as a hard error. -/
inductive SCRes where
  | progress
  | success
  | hard (e : Nat)
deriving DecidableEq, Repr

/-- One step of `socket_connect`: codes in `CONNECT_ERR` mean "trampoline",
codes outside `CONNECT_SUCCESS` are raised, the rest succeed. -/
def socketConnectStep (p : Platform) (c : Nat) : SCRes :=
  if c ∈ CONNECT_ERR p then .progress
  else if c ∈ CONNECT_SUCCESS then .success
  else .hard c

/-- The infinite-timeout branch of `GreenSocket.connect`: `while not
socket_connect(...)`, with only the wait and `socket_checkerr` inside the
`try`; a closed signal becomes a bad-descriptor error.  `codes` are the OS
responses to the successive connect attempts, `checks` the successive pending
error (`SO_ERROR`) values.  The wait has no deadline, so a timeout outcome is
outside the trampoline contract and yields `invalidTrace`. -/
def connectInf (p : Platform) (closedFlag : Bool) :
    List Nat → List Nat → List TrampRes → RunResult Unit
  | [], _, _ => ⟨.invalidTrace, closedFlag, 0, []⟩
  | c :: codesRest, checks, hubTr =>
    match socketConnectStep p c with
    | .success => ⟨.ok (), closedFlag, 1, []⟩
    | .hard e => ⟨.osErr e, closedFlag, 1, []⟩
    | .progress =>
      if closedFlag then ⟨.osErr EBADFD, closedFlag, 1, []⟩
      else
        match hubTr with
        | [] => ⟨.invalidTrace, closedFlag, 1, []⟩
        | .ready :: hubRest =>
          match checks with
          | [] => ⟨.invalidTrace, closedFlag, 1, [⟨false, true, none⟩]⟩
          | k :: checksRest =>
            if k ∈ CONNECT_SUCCESS then
              let rr := connectInf p closedFlag codesRest checksRest hubRest
              ⟨rr.outcome, rr.closedAfter, rr.osCalls + 1,
                ⟨false, true, none⟩ :: rr.tramps⟩
            else ⟨.osErr k, closedFlag, 1, [⟨false, true, none⟩]⟩
        | .ioClosed :: _ => ⟨.osErr EBADFD, true, 1, [⟨false, true, none⟩]⟩
        | .timedOut :: _ => ⟨.invalidTrace, closedFlag, 1, [⟨false, true, none⟩]⟩

/-- The finite-timeout branch of `GreenSocket.connect`: deadline `endT`, with
`clock` the successive `time.time()` readings (one for the deadline test and
one for the remaining-time computation per suspending iteration). -/
def connectFin (p : Platform) (closedFlag : Bool) (endT : ℚ) :
    List Nat → List Nat → List TrampRes → List ℚ → RunResult Unit
  | [], _, _, _ => ⟨.invalidTrace, closedFlag, 0, []⟩
  | c :: codesRest, checks, hubTr, clock =>
    match socketConnectStep p c with
    | .success => ⟨.ok (), closedFlag, 1, []⟩
    | .hard e => ⟨.osErr e, closedFlag, 1, []⟩
    | .progress =>
      match clock with
      | [] => ⟨.invalidTrace, closedFlag, 1, []⟩
      | t :: clock1 =>
        if endT ≤ t then ⟨.timeoutErr, closedFlag, 1, []⟩
        else
          match clock1 with
          | [] => ⟨.invalidTrace, closedFlag, 1, []⟩
          | t2 :: clock2 =>
            if closedFlag then ⟨.osErr EBADFD, closedFlag, 1, []⟩
            else
              match hubTr with
              | [] => ⟨.invalidTrace, closedFlag, 1, []⟩
              | .ready :: hubRest =>
                match checks with
                | [] =>
                  ⟨.invalidTrace, closedFlag, 1, [⟨false, true, some (endT - t2)⟩]⟩
                | k :: checksRest =>
                  if k ∈ CONNECT_SUCCESS then
                    let rr := connectFin p closedFlag endT codesRest checksRest
                        hubRest clock2
                    ⟨rr.outcome, rr.closedAfter, rr.osCalls + 1,
                      ⟨false, true, some (endT - t2)⟩ :: rr.tramps⟩
                  else ⟨.osErr k, closedFlag, 1, [⟨false, true, some (endT - t2)⟩]⟩
              | .ioClosed :: _ =>
                ⟨.osErr EBADFD, true, 1, [⟨false, true, some (endT - t2)⟩]⟩
              | .timedOut :: _ =>
                ⟨.timeoutErr, closedFlag, 1, [⟨false, true, some (endT - t2)⟩]⟩

/-- `GreenSocket.connect`: the `act_non_blocking` bypass delegates to the OS
connect (raising API, oracle `delegTr`); otherwise the loop matching the
logical timeout runs.  The first clock reading computes `end = time.time() +
self.gettimeout()`. -/
def GreenSocket.connect (p : Platform) (s : GSState) (delegTr : List (OSRes Unit))
    (codes checks : List Nat) (hubTr : List TrampRes) (clock : List ℚ) :
    RunResult Unit :=
  if s.act_non_blocking then delegate s.closedFlag delegTr
  else
    match s.timeout with
    | none => connectInf p s.closedFlag codes checks hubTr
    | some tmo =>
      match clock with
      | [] => ⟨.invalidTrace, s.closedFlag, 0, []⟩
      | t0 :: clock1 => connectFin p s.closedFlag (t0 + tmo) codes checks hubTr clock1

/-- The infinite-timeout branch of `GreenSocket.connect_ex`: the `try` covers
only the wait and `socket_checkerr`, so a hard error raised by
`socket_connect` in the `while` condition propagates, and loop exit on success
falls off the function returning `None`; a caught OS error is returned as its
code and a closed signal as `EBADFD`. -/
def connectExInf (p : Platform) (closedFlag : Bool) :
    List Nat → List Nat → List TrampRes → RunResult (Option Nat)
  | [], _, _ => ⟨.invalidTrace, closedFlag, 0, []⟩
  | c :: codesRest, checks, hubTr =>
    match socketConnectStep p c with
    | .success => ⟨.ok none, closedFlag, 1, []⟩
    | .hard e => ⟨.osErr e, closedFlag, 1, []⟩
    | .progress =>
      if closedFlag then ⟨.ok (some EBADFD), closedFlag, 1, []⟩
      else
        match hubTr with
        | [] => ⟨.invalidTrace, closedFlag, 1, []⟩
        | .ready :: hubRest =>
          match checks with
          | [] => ⟨.invalidTrace, closedFlag, 1, [⟨false, true, none⟩]⟩
          | k :: checksRest =>
            if k ∈ CONNECT_SUCCESS then
              let rr := connectExInf p closedFlag codesRest checksRest hubRest
              ⟨rr.outcome, rr.closedAfter, rr.osCalls + 1,
                ⟨false, true, none⟩ :: rr.tramps⟩
            else ⟨.ok (some k), closedFlag, 1, [⟨false, true, none⟩]⟩
        | .ioClosed :: _ => ⟨.ok (some EBADFD), true, 1, [⟨false, true, none⟩]⟩
        | .timedOut :: _ => ⟨.invalidTrace, closedFlag, 1, [⟨false, true, none⟩]⟩

/-- The finite-timeout branch of `GreenSocket.connect_ex`: everything is
inside the `try`, so every failure — a hard connect error, the deadline test
(raising `socket.timeout(EAGAIN)`), the wait's timeout error, the closed
signal, a pending-error check failure — is caught and returned as a code. -/
def connectExFin (p : Platform) (closedFlag : Bool) (endT : ℚ) :
    List Nat → List Nat → List TrampRes → List ℚ → RunResult (Option Nat)
  | [], _, _, _ => ⟨.invalidTrace, closedFlag, 0, []⟩
  | c :: codesRest, checks, hubTr, clock =>
    match socketConnectStep p c with
    | .success => ⟨.ok (some 0), closedFlag, 1, []⟩
    | .hard e => ⟨.ok (some e), closedFlag, 1, []⟩
    | .progress =>
      match clock with
      | [] => ⟨.invalidTrace, closedFlag, 1, []⟩
      | t :: clock1 =>
        if endT ≤ t then ⟨.ok (some EAGAIN), closedFlag, 1, []⟩
        else
          match clock1 with
          | [] => ⟨.invalidTrace, closedFlag, 1, []⟩
          | t2 :: clock2 =>
            if closedFlag then ⟨.ok (some EBADFD), closedFlag, 1, []⟩
            else
              match hubTr with
              | [] => ⟨.invalidTrace, closedFlag, 1, []⟩
              | .ready :: hubRest =>
                match checks with
                | [] =>
                  ⟨.invalidTrace, closedFlag, 1, [⟨false, true, some (endT - t2)⟩]⟩
                | k :: checksRest =>
                  if k ∈ CONNECT_SUCCESS then
                    let rr := connectExFin p closedFlag endT codesRest checksRest
                        hubRest clock2
                    ⟨rr.outcome, rr.closedAfter, rr.osCalls + 1,
                      ⟨false, true, some (endT - t2)⟩ :: rr.tramps⟩
                  else
                    ⟨.ok (some k), closedFlag, 1, [⟨false, true, some (endT - t2)⟩]⟩
              | .ioClosed :: _ =>
                ⟨.ok (some EBADFD), true, 1, [⟨false, true, some (endT - t2)⟩]⟩
              | .timedOut :: _ =>
                ⟨.ok (some EAGAIN), closedFlag, 1, [⟨false, true, some (endT - t2)⟩]⟩

/-- `GreenSocket.connect_ex`: the `act_non_blocking` bypass delegates to the
OS `connect_ex` (which returns a code, oracle `delegCodes`); otherwise the
loop matching the logical timeout runs. -/
def GreenSocket.connect_ex (p : Platform) (s : GSState) (delegCodes : List Nat)
    (codes checks : List Nat) (hubTr : List TrampRes) (clock : List ℚ) :
    RunResult (Option Nat) :=
  if s.act_non_blocking then
    match delegCodes with
    | [] => ⟨.invalidTrace, s.closedFlag, 0, []⟩
    | c :: _ => ⟨.ok (some c), s.closedFlag, 1, []⟩
  else
    match s.timeout with
    | none => connectExInf p s.closedFlag codes checks hubTr
    | some tmo =>
      match clock with
      | [] => ⟨.invalidTrace, s.closedFlag, 0, []⟩
      | t0 :: clock1 =>
        connectExFin p s.closedFlag (t0 + tmo) codes checks hubTr clock1

/-! ### GreenSocket.accept and sendto -/

/-- The value of a successful OS accept: an identifier for the new connection
and one for the peer address. -/
abbrev AcceptPair := Nat × Nat

/-- The suspending loop of `GreenSocket.accept`: `socket_accept` maps exactly
an `EWOULDBLOCK` error to "would need to wait" and propagates any other error;
on waiting, `self._trampoline(fileno, read=True, timeout=self.gettimeout(),
timeout_exc=socket.timeout)` runs and an `IOClosed` propagates (there is no
catch in `accept`). -/
def acceptLoop (p : Platform) (tmo : Option ℚ) (closedFlag : Bool) :
    List (OSRes AcceptPair) → List TrampRes → RunResult AcceptPair
  | [], _ => ⟨.invalidTrace, closedFlag, 0, []⟩
  | .ok pr :: _, _ => ⟨.ok pr, closedFlag, 1, []⟩
  | .err e :: osRest, hubTr =>
    if e = EWOULDBLOCK then
      if closedFlag then ⟨.ioClosedErr, closedFlag, 1, []⟩
      else
        match hubTr with
        | [] => ⟨.invalidTrace, closedFlag, 1, []⟩
        | .ready :: hubRest =>
          let rr := acceptLoop p tmo closedFlag osRest hubRest
          ⟨rr.outcome, rr.closedAfter, rr.osCalls + 1, ⟨true, false, tmo⟩ :: rr.tramps⟩
        | .ioClosed :: _ => ⟨.ioClosedErr, true, 1, [⟨true, false, tmo⟩]⟩
        | .timedOut :: _ => ⟨.timeoutErr, closedFlag, 1, [⟨true, false, tmo⟩]⟩
    else ⟨.osErr e, closedFlag, 1, []⟩

/-- `GreenSocket.accept`: the `act_non_blocking` bypass delegates directly to
the OS accept, otherwise the suspending loop runs (the marked parameter `p` is
unused there because `socket_accept` tests one literal errno). -/
def GreenSocket.accept (p : Platform) (s : GSState)
    (osTr : List (OSRes AcceptPair)) (hubTr : List TrampRes) : RunResult AcceptPair :=
  if s.act_non_blocking then delegate s.closedFlag osTr
  else acceptLoop p s.timeout s.closedFlag osTr hubTr

/-- `GreenSocket.sendto`: unconditionally `self._trampoline(self.fileno(),
write=True)` — no `act_non_blocking` bypass and no timeout argument — then one
OS `sendto` whose result is returned verbatim.  The pre-wait `_closed` guard of
`_trampoline` raises `IOClosed` without contacting the hub. -/
def GreenSocket.sendto (s : GSState) (osTr : List (OSRes Nat))
    (hubTr : List TrampRes) : RunResult Nat :=
  if s.closedFlag then ⟨.ioClosedErr, s.closedFlag, 0, []⟩
  else
    match hubTr with
    | [] => ⟨.invalidTrace, s.closedFlag, 0, []⟩
    | .ready :: _ =>
      match osTr with
      | [] => ⟨.invalidTrace, s.closedFlag, 0, [⟨false, true, none⟩]⟩
      | .ok n :: _ => ⟨.ok n, s.closedFlag, 1, [⟨false, true, none⟩]⟩
      | .err e :: _ => ⟨.osErr e, s.closedFlag, 1, [⟨false, true, none⟩]⟩
    | .ioClosed :: _ => ⟨.ioClosedErr, true, 0, [⟨false, true, none⟩]⟩
    | .timedOut :: _ => ⟨.invalidTrace, s.closedFlag, 0, [⟨false, true, none⟩]⟩

/-! ### _SocketDuckForFd: cooperative raw-descriptor transport -/

/-- `_SocketDuckForFd.recv`: loop one raw `os.read`; an error outside the
would-block class is re-raised as `IOError`; otherwise the adapter's own
`_trampoline(fileno, read=True)` runs — raising `IOClosed` at once when the
adapter is already marked closed, and marking it closed before re-raising when
the hub delivers the closed signal.  The wait has no deadline. -/
def duckRecv (p : Platform) (closedFlag : Bool) :
    List (OSRes Bytes) → List TrampRes → RunResult Bytes
  | [], _ => ⟨.invalidTrace, closedFlag, 0, []⟩
  | .ok v :: _, _ => ⟨.ok v, closedFlag, 1, []⟩
  | .err e :: osRest, hubTr =>
    if e ∈ SOCKET_BLOCKING p then
      if closedFlag then ⟨.ioClosedErr, closedFlag, 1, []⟩
      else
        match hubTr with
        | [] => ⟨.invalidTrace, closedFlag, 1, []⟩
        | .ready :: hubRest =>
          let rr := duckRecv p closedFlag osRest hubRest
          ⟨rr.outcome, rr.closedAfter, rr.osCalls + 1, ⟨true, false, none⟩ :: rr.tramps⟩
        | .ioClosed :: _ => ⟨.ioClosedErr, true, 1, [⟨true, false, none⟩]⟩
        | .timedOut :: _ => ⟨.invalidTrace, closedFlag, 1, [⟨true, false, none⟩]⟩
    else ⟨.ioErr e, closedFlag, 1, []⟩

/-- `_SocketDuckForFd.send`: loop one raw `os.write`; an error outside the
would-block class is re-raised as `IOError`; on would-block the code calls the
bare module-level `trampoline(self.fileno(), write=True)` — not
`self._trampoline` — so there is no pre-wait closed check, the closed signal
is not caught, and the adapter is never marked closed here. -/
def duckSend (p : Platform) (closedFlag : Bool) :
    List (OSRes Nat) → List TrampRes → RunResult Nat
  | [], _ => ⟨.invalidTrace, closedFlag, 0, []⟩
  | .ok n :: _, _ => ⟨.ok n, closedFlag, 1, []⟩
  | .err e :: osRest, hubTr =>
    if e ∈ SOCKET_BLOCKING p then
      match hubTr with
      | [] => ⟨.invalidTrace, closedFlag, 1, []⟩
      | .ready :: hubRest =>
        let rr := duckSend p closedFlag osRest hubRest
        ⟨rr.outcome, rr.closedAfter, rr.osCalls + 1, ⟨false, true, none⟩ :: rr.tramps⟩
      | .ioClosed :: _ => ⟨.ioClosedErr, closedFlag, 1, [⟨false, true, none⟩]⟩
      | .timedOut :: _ => ⟨.invalidTrace, closedFlag, 1, [⟨false, true, none⟩]⟩
    else ⟨.ioErr e, closedFlag, 1, []⟩

/-- The reference-counting state of a `_SocketDuckForFd`: the `_refcount`
(an integer: `_drop` decrements unconditionally), the `_closed` flag, and the
number of times `_close` has run (each run notifies the hub via `notify_close`
and releases the OS descriptor with `os.close`). -/
structure DuckState where
  refcount : Int
  closedFlag : Bool
  releases : Nat
deriving DecidableEq, Repr

/-- A freshly constructed `_SocketDuckForFd`: `notify_opened` has run,
`_closed = False`, class-level `_refcount = 0`, descriptor not yet released. -/
def duckInit : DuckState := ⟨0, false, 0⟩

/-- `_SocketDuckForFd._close`: notify the hub of the close, mark closed, and
release the OS descriptor. -/
def DuckState.closeOp (st : DuckState) : DuckState :=
  { st with closedFlag := true, releases := st.releases + 1 }

/-- `_SocketDuckForFd._reuse`: increment the reference count. -/
def DuckState.reuse (st : DuckState) : DuckState :=
  { st with refcount := st.refcount + 1 }

/-- `_SocketDuckForFd._drop`: decrement the reference count and run `_close`
exactly when it reaches zero. -/
def DuckState.dropRef (st : DuckState) : DuckState :=
  let st1 : DuckState := { st with refcount := st.refcount - 1 }
  if st1.refcount = 0 then st1.closeOp else st1

/-! ### GreenPipe -/

/-- The state of the buffered stream underlying a `GreenPipe` on a seekable
backing store: the file contents, the OS file position, the unread read-ahead
buffer `_rbuf` owned by the buffered layer, and the pending buffered output. -/
structure PipeState where
  contents : List Nat
  pos : Nat
  rbuf : List Nat
  wbuf : List Nat
deriving DecidableEq, Repr

/-- Writing `data` into `contents` at byte position `pos`, zero-filling any
gap beyond the current end of file. -/
def listWrite (contents : List Nat) (pos : Nat) (data : List Nat) : List Nat :=
  contents.take pos ++ List.replicate (pos - contents.length) 0 ++ data
    ++ contents.drop (pos + data.length)

/-- `flush`: write out pending buffered output (a no-op when there is none),
advancing the OS position past it. -/
def PipeState.flushOp (st : PipeState) : PipeState :=
  if st.wbuf = [] then st
  else
    { st with contents := listWrite st.contents st.pos st.wbuf,
              pos := st.pos + st.wbuf.length, wbuf := [] }

/-- Result of a pipe-level I/O step: a value, or a raised `IOError` holding
the originating OS errno. -/
inductive PipeIORes (α : Type) where
  | ok (v : α)
  | ioErr (e : Nat)
deriving DecidableEq, Repr

/-- `os.lseek`: whence 0 = absolute, 1 = relative to the current position,
2 = relative to the end; a negative target is an `EINVAL` OS error, otherwise
the new absolute position is returned. -/
def osLseek (st : PipeState) (offset : Int) (whence : Nat) :
    PipeIORes (Nat × PipeState) :=
  let target : Int :=
    if whence = 0 then offset
    else if whence = 1 then (st.pos : Int) + offset
    else (st.contents.length : Int) + offset
  if target < 0 then .ioErr EINVAL
  else .ok (target.toNat, { st with pos := target.toNat })

/-- A buffered read of `n` bytes: serve from the read-ahead buffer first, and
only go to the OS for what is missing. -/
def pipeRead (st : PipeState) (n : Nat) : List Nat × PipeState :=
  if n ≤ st.rbuf.length then
    (st.rbuf.take n, { st with rbuf := st.rbuf.drop n })
  else
    let fromOS := (st.contents.drop st.pos).take (n - st.rbuf.length)
    (st.rbuf ++ fromOS, { st with rbuf := [], pos := st.pos + fromOS.length })

/-- `GreenPipe._clear_readahead_buf`: discard the read-ahead buffer by reading
its own length. -/
def clearReadahead (st : PipeState) : PipeState :=
  let len := st.rbuf.length
  if 0 < len then (pipeRead st len).2 else st

/-- `GreenPipe.tell`: flush, query the OS position with `os.lseek(fd, 0, 1)`,
and subtract the read-ahead buffer length; an OS error becomes `IOError`. -/
def GreenPipe.tell (st : PipeState) : PipeIORes (Int × PipeState) :=
  let st1 := st.flushOp
  match osLseek st1 0 1 with
  | .ioErr e => .ioErr e
  | .ok (p2, st2) => .ok (((p2 : Int) - st2.rbuf.length, st2))

/-- Instrumented result of `GreenPipe.seek`: the returned value or raised
`IOError` errno, the final stream state, and the argument log of the
repositioning `os.lseek` calls issued (the position query inside `tell` is
not a repositioning seek). -/
structure SeekResult where
  outcome : PipeIORes Int
  state : PipeState
  lseekArgs : List (Int × Nat)
deriving DecidableEq, Repr

/-- `GreenPipe.seek`: flush first; whence 1 with offset 0 is a pure `tell`;
whence 1 with a nonzero offset is adjusted by subtracting the read-ahead
length; after a real seek the read-ahead buffer is discarded. -/
def GreenPipe.seek (st : PipeState) (offset : Int) (whence : Nat) : SeekResult :=
  let st1 := st.flushOp
  if whence = 1 ∧ offset = 0 then
    match GreenPipe.tell st1 with
    | .ioErr e => ⟨.ioErr e, st1, []⟩
    | .ok (v, st2) => ⟨.ok v, st2, []⟩
  else
    let offset2 : Int := if whence = 1 then offset - st1.rbuf.length else offset
    match osLseek st1 offset2 whence with
    | .ioErr e => ⟨.ioErr e, st1, [(offset2, whence)]⟩
    | .ok (rv, st2) => ⟨.ok (rv : Int), clearReadahead st2, [(offset2, whence)]⟩

/-- The I/O-shaped operations of a `GreenPipe` (`next`, `__iter__` and
`__next__` are the iteration protocol entries; `xreadlines` the legacy one). -/
inductive PipeOp where
  | fileno
  | flush
  | isatty
  | nextMeth
  | read
  | readinto
  | readline
  | readlines
  | seek
  | tell
  | truncate
  | write
  | xreadlines
  | iterDunder
  | nextDunder
  | writelines
deriving DecidableEq, Repr

/-- The exact method list replaced by `GreenPipe.close`. -/
def ioMethods : List PipeOp :=
  [.fileno, .flush, .isatty, .nextMeth, .read, .readinto, .readline, .readlines,
   .seek, .tell, .truncate, .write, .xreadlines, .iterDunder, .nextDunder,
   .writelines]

/-- Method dispatch state of a `GreenPipe` object: which methods have been
replaced on the instance by the closed-file stub, over the buffered state. -/
structure PipeHandle where
  overridden : List PipeOp
  inner : PipeState
deriving DecidableEq, Repr

/-- Result of invoking one method on a `GreenPipe`: the stub
`_operation_on_closed_file` raises `ValueError('I/O operation on closed
file')` regardless of arguments; otherwise the real operation runs. -/
inductive PipeCallRes where
  | valueErr
  | performed (op : PipeOp)
deriving DecidableEq, Repr

/-- Method dispatch: an instance attribute installed by `close` shadows the
class method unconditionally. -/
def callPipeOp (h : PipeHandle) (op : PipeOp) : PipeCallRes :=
  if op ∈ h.overridden then .valueErr else .performed op

/-- `GreenPipe.close`: after the buffered close, every I/O-shaped method is
replaced on the instance by `_operation_on_closed_file`. -/
def GreenPipe.close (h : PipeHandle) : PipeHandle :=
  { h with overridden := ioMethods }

/-! ### Event-hub registry (`guv/hubs/hub.py`) -/

/-- A reactor backend module: its identity and whether it exposes a `Hub`
attribute. -/
structure Backend where
  id : Nat
  hasHubAttr : Bool
deriving DecidableEq, Repr

/-- What `use_hub` stores in `_threadlocal.Hub`: the backend's `Hub` type, the
backend module itself, or the `None` returned by a failed default discovery
(not constructible). -/
inductive HubTy where
  | fromHubAttr (id : Nat)
  | fromModule (id : Nat)
  | noneModule
deriving DecidableEq, Repr

/-- A constructed hub instance: its type and a construction serial number
distinguishing separate instantiations. -/
structure HubInstance where
  ty : HubTy
  serial : Nat
deriving DecidableEq, Repr

/-- The per-thread registry slots of `hub.py`: `_threadlocal.hub` (the cached
instance), `_threadlocal.Hub` (the selected constructible type; `none` models
the attribute not being set), and a counter of constructor runs providing
fresh serials. -/
structure HubRegistry where
  hub : Option HubInstance
  hubTy : Option HubTy
  nextSerial : Nat
deriving DecidableEq, Repr

/-- The import environment: the backends of the fixed priority list
(`pyuv` then `epoll`) that are actually importable, in that order. -/
structure HubEnv where
  available : List Backend
deriving DecidableEq, Repr

/-- `get_default_hub`: return the first importable backend of the priority
list, or nothing when none is. -/
def getDefaultHub (env : HubEnv) : Option Backend := env.available.head?

/-- What `use_hub` stores for a chosen backend: its `Hub` attribute when it
has one, the module itself otherwise. -/
def storedHubTy (b : Backend) : HubTy :=
  if b.hasHubAttr then .fromHubAttr b.id else .fromModule b.id

/-- `use_hub(mod)`: run default discovery when no module is given, drop any
cached hub instance, and store the constructible type. -/
def useHub (env : HubEnv) (reg : HubRegistry) (mod : Option Backend) : HubRegistry :=
  let chosen : Option Backend :=
    match mod with
    | some b => some b
    | none => getDefaultHub env
  let reg1 : HubRegistry := { reg with hub := none }
  match chosen with
  | some b => { reg1 with hubTy := some (storedHubTy b) }
  | none => { reg1 with hubTy := some .noneModule }

/-- Constructing `_threadlocal.Hub()`: a real type yields a fresh instance;
calling the `None` left by a failed discovery raises. -/
def mkHubInstance (t : HubTy) (serial : Nat) : Option HubInstance :=
  match t with
  | .noneModule => none
  | _ => some ⟨t, serial⟩

/-- `get_hub`: return the cached instance if there is one; otherwise run
`use_hub()` first when no type has been selected, then construct and cache
exactly one instance.  A `typeErr` outcome models the `TypeError` of calling
the non-constructible `None`. -/
def getHub (env : HubEnv) (reg : HubRegistry) :
    PyOutcome HubInstance × HubRegistry :=
  match reg.hub with
  | some h => (.ok h, reg)
  | none =>
    let reg1 : HubRegistry :=
      match reg.hubTy with
      | none => useHub env reg none
      | some _ => reg
    match reg1.hubTy with
    | none => (.invalidTrace, reg1)
    | some t =>
      match mkHubInstance t reg1.nextSerial with
      | none => (.typeErr, reg1)
      | some inst =>
        (.ok inst, { reg1 with hub := some inst, nextSerial := reg1.nextSerial + 1 })

/-- An outcome that is a normal return (or an exhausted oracle trace), i.e.
not a raised exception. -/
def isReturnOrInvalid {α : Type} : PyOutcome α → Prop
  | .ok _ => True
  | .invalidTrace => True
  | _ => False

/-! ### Theorems -/

/-- The peer-closed class and the would-block class are disjoint on both
platforms, so the `elif` order of `recv` cannot shadow the peer-closed case. -/
theorem closed_not_blocking (p : Platform) (e : Nat) (h : e ∈ SOCKET_CLOSED p) :
    e ∉ SOCKET_BLOCKING p := by
  cases p <;>
    simp_all [SOCKET_CLOSED, SOCKET_BLOCKING, EAGAIN, EWOULDBLOCK, ENOTCONN,
      ECONNRESET, ESHUTDOWN, EPIPE] <;>
    omega

/-- C1: in suspending mode (`act_non_blocking = false`), `recv` classifies the
OS error of each attempt: a would-block class error suspends for
read-readiness with the logical timeout as deadline and retries; a peer-closed
class error returns an empty result rather than raising; any other error
propagates unchanged; a closed signal delivered while suspended makes `recv`
fail with an end-of-stream (`EOFError`) error.  In non-suspending mode `recv`
delegates directly to the OS recv. -/
theorem claim_recv_error_classes (p : Platform) (s : GSState) :
    (s.act_non_blocking = false →
      (∀ e osRest hubRest, e ∈ SOCKET_BLOCKING p → s.closedFlag = false →
          GreenSocket.recv p s (.err e :: osRest) (.ready :: hubRest) =
            { outcome := (GreenSocket.recv p s osRest hubRest).outcome
              closedAfter := (GreenSocket.recv p s osRest hubRest).closedAfter
              osCalls := (GreenSocket.recv p s osRest hubRest).osCalls + 1
              tramps := ⟨true, false, s.timeout⟩ ::
                (GreenSocket.recv p s osRest hubRest).tramps }) ∧
      (∀ e osRest hubTr, e ∈ SOCKET_CLOSED p →
          GreenSocket.recv p s (.err e :: osRest) hubTr =
            ⟨.ok [], s.closedFlag, 1, []⟩) ∧
      (∀ e osRest hubTr, e ∉ SOCKET_BLOCKING p → e ∉ SOCKET_CLOSED p →
          GreenSocket.recv p s (.err e :: osRest) hubTr =
            ⟨.osErr e, s.closedFlag, 1, []⟩) ∧
      (∀ e osRest hubRest, e ∈ SOCKET_BLOCKING p → s.closedFlag = false →
          GreenSocket.recv p s (.err e :: osRest) (.ioClosed :: hubRest) =
            ⟨.eofErr, true, 1, [⟨true, false, s.timeout⟩]⟩)) ∧
    (s.act_non_blocking = true →
      ∀ osTr hubTr, GreenSocket.recv p s osTr hubTr = delegate s.closedFlag osTr) := by
  constructor
  · intro hanb
    refine ⟨?_, ?_, ?_, ?_⟩
    · intro e osRest hubRest he hcl
      simp [GreenSocket.recv, recvLoop, hanb, hcl, he]
    · intro e osRest hubTr he
      simp [GreenSocket.recv, recvLoop, hanb, he, closed_not_blocking p e he]
    · intro e osRest hubTr hb hc
      simp [GreenSocket.recv, recvLoop, hanb, hb, hc]
    · intro e osRest hubRest he hcl
      simp [GreenSocket.recv, recvLoop, hanb, hcl, he]
  · intro hanb osTr hubTr
    simp [GreenSocket.recv, hanb]

/-- C1 witness: a peer-closed error (`ECONNRESET`) on a suspending socket
returns the empty result. -/
theorem claim_recv_error_classes_wit :
    GreenSocket.recv .posix ⟨false, some 2, false⟩ [.err ECONNRESET] [] =
      ⟨.ok [], false, 1, []⟩ :=
  ((claim_recv_error_classes .posix ⟨false, some 2, false⟩).1 rfl).2.1
    ECONNRESET [] [] (by decide)

/-- C3: once `act_non_blocking` holds — the state produced by
`setblocking(False)` or `settimeout(0)` — each of `recv`, `send`, `connect`
and `accept` issues exactly one OS call, passes its value or error through
verbatim, and never invokes the suspend primitive, whatever the OS responds. -/
theorem claim_nonblocking_bypass (p : Platform) (s : GSState)
    (h : s.act_non_blocking = true) :
    (∀ s0 : GSState, (GreenSocket.setblocking s0 false).act_non_blocking = true ∧
        (GreenSocket.settimeout s0 (.num 0)).2.act_non_blocking = true) ∧
    (∀ (r : OSRes Bytes) osRest hubTr,
        GreenSocket.recv p s (r :: osRest) hubTr =
          ⟨match r with | .ok v => .ok v | .err e => .osErr e, s.closedFlag, 1, []⟩) ∧
    (∀ (r : OSRes Nat) osRest hubTr lenData,
        GreenSocket.send p s lenData (r :: osRest) hubTr =
          ⟨match r with | .ok v => .ok v | .err e => .osErr e, s.closedFlag, 1, []⟩) ∧
    (∀ (r : OSRes Unit) rest codes checks hubTr clock,
        GreenSocket.connect p s (r :: rest) codes checks hubTr clock =
          ⟨match r with | .ok v => .ok v | .err e => .osErr e, s.closedFlag, 1, []⟩) ∧
    (∀ (r : OSRes AcceptPair) rest hubTr,
        GreenSocket.accept p s (r :: rest) hubTr =
          ⟨match r with | .ok v => .ok v | .err e => .osErr e, s.closedFlag, 1, []⟩) := by
  refine ⟨?_, ?_, ?_, ?_, ?_⟩
  · intro s0
    constructor
    · simp [GreenSocket.setblocking]
    · simp [GreenSocket.settimeout]
  · intro r osRest hubTr
    cases r <;> simp [GreenSocket.recv, delegate, h]
  · intro r osRest hubTr lenData
    cases r <;> simp [GreenSocket.send, delegate, h]
  · intro r rest codes checks hubTr clock
    cases r <;> simp [GreenSocket.connect, delegate, h]
  · intro r rest hubTr
    cases r <;> simp [GreenSocket.accept, delegate, h]

/-- C3 witness: a non-suspending socket delegates one `recv` directly even on
a would-block error. -/
theorem claim_nonblocking_bypass_wit :
    GreenSocket.recv .posix ⟨true, some 0, false⟩ [.err EAGAIN] [.ready] =
      ⟨.osErr EAGAIN, false, 1, []⟩ :=
  (claim_nonblocking_bypass .posix ⟨true, some 0, false⟩ rfl).2.1
    (.err EAGAIN) [] [.ready]

/-- C8: `settimeout` rejects a negative duration with a `ValueError` and a
non-numeric argument with a `TypeError`, leaving the state unchanged in both
cases; `settimeout(0)` and `setblocking(False)` enter non-suspending mode with
timeout 0; `settimeout(t)` for `t > 0` enters suspending mode with
`gettimeout() = t`; `setblocking(True)` enters suspending mode with timeout
`None` (logically infinite). -/
theorem claim_settimeout_transitions (s : GSState) :
    (∀ q : ℚ, q < 0 → GreenSocket.settimeout s (.num q) = (.valueErr, s)) ∧
    (GreenSocket.settimeout s .nonNumeric = (.typeErr, s)) ∧
    (GreenSocket.settimeout s (.num 0) =
      (.okSet, { s with act_non_blocking := true, timeout := some 0 })) ∧
    (GreenSocket.setblocking s false =
      { s with act_non_blocking := true, timeout := some 0 }) ∧
    (∀ q : ℚ, 0 < q →
      GreenSocket.settimeout s (.num q) =
        (.okSet, { s with act_non_blocking := false, timeout := some q }) ∧
      GreenSocket.gettimeout (GreenSocket.settimeout s (.num q)).2 = some q) ∧
    (GreenSocket.setblocking s true =
      { s with act_non_blocking := false, timeout := none }) := by
  refine ⟨?_, ?_, ?_, ?_, ?_, ?_⟩
  · intro q hq
    simp [GreenSocket.settimeout, hq]
  · simp [GreenSocket.settimeout]
  · simp [GreenSocket.settimeout]
  · simp [GreenSocket.setblocking]
  · intro q hq
    have h1 : ¬ q < 0 := not_lt.mpr hq.le
    have h2 : q ≠ 0 := ne_of_gt hq
    constructor
    · simp [GreenSocket.settimeout, h1, h2]
    · simp [GreenSocket.settimeout, GreenSocket.gettimeout, h1, h2]
  · simp [GreenSocket.setblocking]

/-- C8 witness: `settimeout(-1)` raises the range error with no state change,
and `settimeout(5)` enters suspending mode with timeout 5. -/
theorem claim_settimeout_transitions_wit :
    GreenSocket.settimeout ⟨true, some 0, false⟩ (.num (-1)) =
      (.valueErr, ⟨true, some 0, false⟩) ∧
    GreenSocket.settimeout ⟨true, some 0, false⟩ (.num 5) =
      (.okSet, ⟨false, some 5, false⟩) :=
  ⟨(claim_settimeout_transitions ⟨true, some 0, false⟩).1 (-1) (by norm_num),
   ((claim_settimeout_transitions ⟨true, some 0, false⟩).2.2.2.2.1 5 (by norm_num)).1⟩

/-- `n` `_reuse` calls on a fresh adapter leave the reference count at `n`. -/
theorem reuse_iterate (n : Nat) :
    DuckState.reuse^[n] duckInit = ⟨(n : Int), false, 0⟩ := by
  induction n with
  | zero => rfl
  | succ k ih =>
    rw [Function.iterate_succ_apply', ih]
    simp only [DuckState.reuse, DuckState.mk.injEq]
    refine ⟨by push_cast; ring, by trivial, by trivial⟩

/-- Fewer `_drop` calls than the positive reference count only decrement it:
the descriptor is not released. -/
theorem drop_iterate_lt (m k : Nat) (h : k < m) :
    DuckState.dropRef^[k] ⟨(m : Int), false, 0⟩ = ⟨((m - k : Nat) : Int), false, 0⟩ := by
  induction k with
  | zero => simp
  | succ j ih =>
    have hj : j < m := Nat.lt_of_succ_lt h
    rw [Function.iterate_succ_apply', ih hj]
    have h1 : ¬ (((m - j : Nat) : Int) - 1 = 0) := by omega
    simp only [DuckState.dropRef, h1, if_false, DuckState.mk.injEq]
    refine ⟨by omega, by trivial, by trivial⟩

/-- C5: after `N ≥ 1` `_reuse` calls followed by `N` `_drop` calls on a fresh
duck-socket, the descriptor is released (closed, with the hub notified)
exactly once; after the same `N` reuses and `k < N` drops, the drop path has
not released it. -/
theorem claim_duck_refcount (N k : Nat) (h1 : 1 ≤ N) (hk : k < N) :
    DuckState.dropRef^[N] (DuckState.reuse^[N] duckInit) = ⟨0, true, 1⟩ ∧
    (DuckState.dropRef^[k] (DuckState.reuse^[N] duckInit)).releases = 0 := by
  constructor
  · rw [reuse_iterate]
    obtain ⟨M, rfl⟩ : ∃ M, N = M + 1 := ⟨N - 1, by omega⟩
    rw [Function.iterate_succ_apply', drop_iterate_lt (M + 1) M (by omega)]
    have hM : (M + 1 - M : Nat) = 1 := by omega
    rw [hM]
    decide
  · rw [reuse_iterate, drop_iterate_lt N k hk]

/-- C5 witness: two reuses and two drops release once; two reuses and one
drop release nothing. -/
theorem claim_duck_refcount_wit :
    DuckState.dropRef^[2] (DuckState.reuse^[2] duckInit) = ⟨0, true, 1⟩ ∧
    (DuckState.dropRef^[1] (DuckState.reuse^[2] duckInit)).releases = 0 :=
  claim_duck_refcount 2 1 (by decide) (by decide)

/-- C6: after `GreenPipe.close`, every I/O-shaped operation — `fileno`,
`flush`, `isatty`, the read variants, `readline`/`readlines`, `seek`, `tell`,
`truncate`, the write variants, and the iteration entries — dispatches to the
closed-file stub and fails with the plain "operation on closed file"
`ValueError`, regardless of the prior buffered state. -/
theorem claim_pipe_close_fails_fast (h : PipeHandle) :
    callPipeOp (GreenPipe.close h) .fileno = .valueErr ∧
    callPipeOp (GreenPipe.close h) .flush = .valueErr ∧
    callPipeOp (GreenPipe.close h) .isatty = .valueErr ∧
    callPipeOp (GreenPipe.close h) .nextMeth = .valueErr ∧
    callPipeOp (GreenPipe.close h) .read = .valueErr ∧
    callPipeOp (GreenPipe.close h) .readinto = .valueErr ∧
    callPipeOp (GreenPipe.close h) .readline = .valueErr ∧
    callPipeOp (GreenPipe.close h) .readlines = .valueErr ∧
    callPipeOp (GreenPipe.close h) .seek = .valueErr ∧
    callPipeOp (GreenPipe.close h) .tell = .valueErr ∧
    callPipeOp (GreenPipe.close h) .truncate = .valueErr ∧
    callPipeOp (GreenPipe.close h) .write = .valueErr ∧
    callPipeOp (GreenPipe.close h) .xreadlines = .valueErr ∧
    callPipeOp (GreenPipe.close h) .iterDunder = .valueErr ∧
    callPipeOp (GreenPipe.close h) .nextDunder = .valueErr ∧
    callPipeOp (GreenPipe.close h) .writelines = .valueErr :=
  ⟨rfl, rfl, rfl, rfl, rfl, rfl, rfl, rfl, rfl, rfl, rfl, rfl, rfl, rfl, rfl, rfl⟩

/-- Flushing does not touch the read-ahead buffer. -/
theorem flushOp_rbuf (st : PipeState) : st.flushOp.rbuf = st.rbuf := by
  unfold PipeState.flushOp
  split <;> rfl

/-- Flushing is idempotent (the pending-output buffer is empty afterwards). -/
theorem flushOp_idem (st : PipeState) : st.flushOp.flushOp = st.flushOp := by
  by_cases hw : st.wbuf = []
  · simp [PipeState.flushOp, hw]
  · simp [PipeState.flushOp, hw]

/-- Discarding the read-ahead buffer by reading its own length empties it. -/
theorem clearReadahead_rbuf (st : PipeState) : (clearReadahead st).rbuf = [] := by
  unfold clearReadahead
  by_cases hl : 0 < st.rbuf.length
  · simp [hl, pipeRead]
  · simp only [hl, if_false]
    exact List.length_eq_zero.mp (by omega)

/-- The position query `os.lseek(fd, 0, 1)` returns the current position and
moves nothing. -/
theorem osLseek_cur_zero (s1 : PipeState) : osLseek s1 0 1 = .ok (s1.pos, s1) := by
  unfold osLseek
  norm_num

/-- C7: on an open pipe over a seekable backing store, `tell` flushes and
reports the OS position minus the unread read-ahead length; `seek(0, 1)` is a
pure `tell` (same value, same state, no repositioning OS seek); `seek(off, 1)`
with `off ≠ 0` issues the OS seek with `off` minus the read-ahead length; and
any real seek that succeeds leaves the read-ahead buffer empty. -/

theorem claim_pipe_seek_tell (st : PipeState) :
    (GreenPipe.tell st =
      .ok (((st.flushOp.pos : Int) - st.rbuf.length), st.flushOp)) ∧
    (∀ v st2, GreenPipe.tell st = .ok (v, st2) →
      GreenPipe.seek st 0 1 = ⟨.ok v, st2, []⟩) ∧
    (∀ offset : Int, offset ≠ 0 →
      (GreenPipe.seek st offset 1).lseekArgs =
        [(offset - st.rbuf.length, 1)]) ∧
    (∀ (offset : Int) (whence : Nat) (rv : Int), ¬(whence = 1 ∧ offset = 0) →
      (GreenPipe.seek st offset whence).outcome = .ok rv →
      (GreenPipe.seek st offset whence).state.rbuf = []) := by
  have htell : ∀ s1 : PipeState, GreenPipe.tell s1 =
      .ok (((s1.flushOp.pos : Int) - s1.rbuf.length), s1.flushOp) := by
    intro s1
    simp only [GreenPipe.tell, osLseek_cur_zero, flushOp_rbuf]
  refine ⟨htell st, ?_, ?_, ?_⟩
  · intro v st2 h2
    have h3 : GreenPipe.tell st.flushOp = GreenPipe.tell st := by
      rw [htell st.flushOp, htell st, flushOp_idem, flushOp_rbuf]
    simp only [GreenPipe.seek]
    split
    · rw [h3, h2]
    · rename_i hfalse
      exact absurd (by simp) hfalse
  · intro offset hoff
    simp only [GreenPipe.seek]
    split
    · rename_i htrue
      exact absurd htrue (by simp [hoff])
    · simp only [ite_true]
      rw [flushOp_rbuf]
      cases hls : osLseek st.flushOp (offset - st.rbuf.length) 1 with
      | ioErr e => rfl
      | ok pr =>
        obtain ⟨a, st2⟩ := pr
        rfl
  · intro offset whence rv hnot hok
    simp only [GreenPipe.seek] at hok ⊢
    rw [if_neg hnot] at hok ⊢
    cases hls : osLseek st.flushOp
        (if whence = 1 then offset - st.flushOp.rbuf.length else offset) whence with
    | ioErr e =>
      rw [hls] at hok
      simp at hok
    | ok pr =>
      obtain ⟨a, st2⟩ := pr
      exact clearReadahead_rbuf st2

/-- C7 witness: with one unread byte buffered, `seek(5, 1)` issues the OS
seek with offset 4. -/
theorem claim_pipe_seek_tell_wit :
    (GreenPipe.seek ⟨[1, 2, 3, 4], 3, [9], []⟩ 5 1).lseekArgs = [((4 : Int), 1)] := by
  have h := (claim_pipe_seek_tell ⟨[1, 2, 3, 4], 3, [9], []⟩).2.2.1 5 (by decide)
  simpa using h

/-- C4 (code bug in `_SocketDuckForFd.send`): on a would-block error the
adapter's `send` waits through the bare module-level `trampoline`, not
`self._trampoline`, so the closed signal raised during the wait propagates raw
and the adapter is not marked closed — unlike `recv` on the identical trace,
which marks the adapter closed before re-raising — and a `send` on an adapter
already marked closed still contacts the hub instead of failing at once. -/
theorem claim_duck_send_closed_signal :
    duckSend .posix false [.err EAGAIN] [.ioClosed] =
      ⟨.ioClosedErr, false, 1, [⟨false, true, none⟩]⟩ ∧
    duckRecv .posix false [.err EAGAIN] [.ioClosed] =
      ⟨.ioClosedErr, true, 1, [⟨true, false, none⟩]⟩ ∧
    duckSend .posix true [.err EAGAIN, .ok 3] [.ready] =
      ⟨.ok 3, true, 2, [⟨false, true, none⟩]⟩ :=
  ⟨rfl, rfl, rfl⟩

/-- C10 counterexample: on a `GreenSocket` already marked closed, `sendto`
raises the closed signal without invoking the suspend primitive at all and
without delegating to the OS `sendto` — refuting "invokes the suspend
primitive exactly once ... then delegates exactly once" for every
`GreenSocket`. -/
theorem claim_sendto_cex :
    GreenSocket.sendto ⟨false, none, true⟩ [.ok 5] [.ready] =
      ⟨.ioClosedErr, true, 0, []⟩ := rfl

/-- C10 (amended): on a `GreenSocket` not marked closed, `sendto` invokes the
suspend primitive exactly once, for write-readiness with no deadline —
whatever `act_non_blocking` and the logical timeout are — and when the wait
completes normally delegates exactly once to the OS `sendto`, returning its
result verbatim; a closed signal during the wait propagates with no OS call;
a socket already marked closed fails at once without contacting the hub. -/
theorem claim_sendto_amended (s : GSState) (h : s.closedFlag = false) :
    (∀ osRest hubRest (n : Nat),
      GreenSocket.sendto s (.ok n :: osRest) (.ready :: hubRest) =
        ⟨.ok n, false, 1, [⟨false, true, none⟩]⟩) ∧
    (∀ osRest hubRest (e : Nat),
      GreenSocket.sendto s (.err e :: osRest) (.ready :: hubRest) =
        ⟨.osErr e, false, 1, [⟨false, true, none⟩]⟩) ∧
    (∀ osTr hubRest,
      GreenSocket.sendto s osTr (.ioClosed :: hubRest) =
        ⟨.ioClosedErr, true, 0, [⟨false, true, none⟩]⟩) ∧
    (∀ osTr hubTr (b : Bool) (tmo : Option ℚ),
      GreenSocket.sendto ⟨b, tmo, true⟩ osTr hubTr =
        ⟨.ioClosedErr, true, 0, []⟩) := by
  refine ⟨?_, ?_, ?_, ?_⟩ <;> intros <;> simp [GreenSocket.sendto, h]

/-- C10 witness: even with `act_non_blocking` set and timeout 0, `sendto`
waits once with no deadline and then delegates once. -/
theorem claim_sendto_amended_wit :
    GreenSocket.sendto ⟨true, some 0, false⟩ [.ok 7] [.ready] =
      ⟨.ok 7, false, 1, [⟨false, true, none⟩]⟩ :=
  (claim_sendto_amended ⟨true, some 0, false⟩ rfl).1 [] [] 7

/-- C2 counterexample: with an infinite logical timeout, a hard OS error from
the connect attempt (`ECONNREFUSED`, outside both `CONNECT_ERR` and
`CONNECT_SUCCESS`) propagates out of `connect_ex` as a raised error — the
attempt sits in the `while` condition, outside the `try` — and loop exit on
success falls off the function returning `None` rather than `0`; both refute
"never raises: every failure ... converted to a returned OS error code (0 on
success, ...) in both the infinite-timeout and finite-timeout branches". -/
theorem claim_connect_ex_cex :
    GreenSocket.connect_ex .posix ⟨false, none, false⟩ [] [ECONNREFUSED] [] [] [] =
      ⟨.osErr ECONNREFUSED, false, 1, []⟩ ∧
    GreenSocket.connect_ex .posix ⟨false, none, false⟩ [] [0] [] [] [] =
      ⟨.ok none, false, 1, []⟩ :=
  ⟨rfl, rfl⟩

/-- In the finite-timeout branch of `connect_ex` nothing ever raises: every
outcome on every trace is a normal return (or an exhausted oracle). -/
theorem connectExFin_no_raise (p : Platform) (codes : List Nat) :
    ∀ (checks : List Nat) (hubTr : List TrampRes) (clock : List ℚ)
      (closedFlag : Bool) (endT : ℚ),
      isReturnOrInvalid (connectExFin p closedFlag endT codes checks hubTr clock).outcome := by
  induction codes with
  | nil =>
    intro checks hubTr clock closedFlag endT
    simp [connectExFin, isReturnOrInvalid]
  | cons c rest ih =>
    intro checks hubTr clock closedFlag endT
    simp only [connectExFin]
    cases socketConnectStep p c with
    | success => simp [isReturnOrInvalid]
    | hard e => simp [isReturnOrInvalid]
    | progress =>
      cases clock with
      | nil => simp [isReturnOrInvalid]
      | cons t clock1 =>
        by_cases hT : endT ≤ t
        · simp [hT, isReturnOrInvalid]
        · simp only [hT, if_false]
          cases clock1 with
          | nil => simp [isReturnOrInvalid]
          | cons t2 clock2 =>
            by_cases hcl : closedFlag = true
            · simp [hcl, isReturnOrInvalid]
            · simp only [hcl, if_false]
              cases hubTr with
              | nil => simp [isReturnOrInvalid]
              | cons hres hubRest =>
                cases hres with
                | ready =>
                  cases checks with
                  | nil => simp [isReturnOrInvalid]
                  | cons k checksRest =>
                    by_cases hk : k ∈ CONNECT_SUCCESS
                    · simpa [hk] using ih checksRest hubRest clock2 false endT
                    · simp [hk, isReturnOrInvalid]
                | ioClosed => simp [isReturnOrInvalid]
                | timedOut => simp [isReturnOrInvalid]

/-- C2 (amended): in suspending mode with a finite timeout, `connect_ex`
never raises — timeout expiry returns `EAGAIN`, the closed signal returns
`EBADFD`, a hard connect error returns its own code, and success returns 0.
With an infinite timeout, failures of the wait and of the pending-error check
are likewise converted (`EBADFD` for closed-mid-wait), but success returns
`None` rather than `0` and a hard error raised by the connect attempt itself
propagates unchanged. -/
theorem claim_connect_ex_amended (p : Platform) (s : GSState)
    (hanb : s.act_non_blocking = false) :
    (∀ tmo, s.timeout = some tmo →
      ∀ delegCodes codes checks hubTr clock,
        isReturnOrInvalid
          (GreenSocket.connect_ex p s delegCodes codes checks hubTr clock).outcome) ∧
    (∀ (closedFlag : Bool) (endT : ℚ) (c : Nat) codes checks hubTr (t : ℚ) clock,
      c ∈ CONNECT_ERR p → endT ≤ t →
        connectExFin p closedFlag endT (c :: codes) checks hubTr (t :: clock) =
          ⟨.ok (some EAGAIN), closedFlag, 1, []⟩) ∧
    (∀ (endT : ℚ) (c : Nat) codes checks hubRest (t t2 : ℚ) clock,
      c ∈ CONNECT_ERR p → ¬ endT ≤ t →
        connectExFin p false endT (c :: codes) checks (.ioClosed :: hubRest)
            (t :: t2 :: clock) =
          ⟨.ok (some EBADFD), true, 1, [⟨false, true, some (endT - t2)⟩]⟩) ∧
    (∀ (closedFlag : Bool) (endT : ℚ) (c : Nat) codes checks hubTr clock,
      c ∉ CONNECT_ERR p → c ∉ CONNECT_SUCCESS →
        connectExFin p closedFlag endT (c :: codes) checks hubTr clock =
          ⟨.ok (some c), closedFlag, 1, []⟩) ∧
    (∀ (closedFlag : Bool) (endT : ℚ) (c : Nat) codes checks hubTr clock,
      c ∉ CONNECT_ERR p → c ∈ CONNECT_SUCCESS →
        connectExFin p closedFlag endT (c :: codes) checks hubTr clock =
          ⟨.ok (some 0), closedFlag, 1, []⟩) ∧
    (s.timeout = none →
      ∀ delegCodes (c : Nat) codes checks hubTr,
        (c ∉ CONNECT_ERR p → c ∈ CONNECT_SUCCESS →
          GreenSocket.connect_ex p s delegCodes (c :: codes) checks hubTr [] =
            ⟨.ok none, s.closedFlag, 1, []⟩) ∧
        (c ∉ CONNECT_ERR p → c ∉ CONNECT_SUCCESS →
          GreenSocket.connect_ex p s delegCodes (c :: codes) checks hubTr [] =
            ⟨.osErr c, s.closedFlag, 1, []⟩) ∧
        (c ∈ CONNECT_ERR p → s.closedFlag = false →
          GreenSocket.connect_ex p s delegCodes (c :: codes) checks
              (.ioClosed :: hubTr) [] =
            ⟨.ok (some EBADFD), true, 1, [⟨false, true, none⟩]⟩) ∧
        (∀ k checksRest, c ∈ CONNECT_ERR p → s.closedFlag = false →
          k ∉ CONNECT_SUCCESS →
          GreenSocket.connect_ex p s delegCodes (c :: codes) (k :: checksRest)
              (.ready :: hubTr) [] =
            ⟨.ok (some k), s.closedFlag, 1, [⟨false, true, none⟩]⟩)) := by
  refine ⟨?_, ?_, ?_, ?_, ?_, ?_⟩
  · intro tmo htmo delegCodes codes checks hubTr clock
    simp only [GreenSocket.connect_ex, hanb, if_false, htmo]
    cases clock with
    | nil => simp [isReturnOrInvalid]
    | cons t0 clock1 => exact connectExFin_no_raise p codes checks hubTr clock1 _ _
  · intro closedFlag endT c codes checks hubTr t clock hc hT
    simp [connectExFin, socketConnectStep, hc, hT]
  · intro endT c codes checks hubRest t t2 clock hc hT
    simp [connectExFin, socketConnectStep, hc, hT]
  · intro closedFlag endT c codes checks hubTr clock hc1 hc2
    simp [connectExFin, socketConnectStep, hc1, hc2]
  · intro closedFlag endT c codes checks hubTr clock hc1 hc2
    simp [connectExFin, socketConnectStep, hc1, hc2]
  · intro htmo delegCodes c codes checks hubTr
    refine ⟨?_, ?_, ?_, ?_⟩
    · intro hc1 hc2
      simp [GreenSocket.connect_ex, hanb, htmo, connectExInf, socketConnectStep, hc1, hc2]
    · intro hc1 hc2
      simp [GreenSocket.connect_ex, hanb, htmo, connectExInf, socketConnectStep, hc1, hc2]
    · intro hc hcl
      simp [GreenSocket.connect_ex, hanb, htmo, connectExInf, socketConnectStep, hc, hcl]
    · intro k checksRest hc hcl hk
      simp [GreenSocket.connect_ex, hanb, htmo, connectExInf, socketConnectStep, hc, hcl, hk]

/-- C2 witness: a suspending socket with timeout 1 whose first connect attempt
returns a hard error still returns normally (the error is converted, not
raised). -/
theorem claim_connect_ex_amended_wit :
    isReturnOrInvalid
      (GreenSocket.connect_ex .posix ⟨false, some 1, false⟩ [] [ECONNREFUSED]
        [] [] [0]).outcome :=
  (claim_connect_ex_amended .posix ⟨false, some 1, false⟩ rfl).1 1 rfl
    [] [ECONNREFUSED] [] [] [0]

/-- A cached hub instance is returned as-is: no selection, no construction,
no registry change. -/
theorem getHub_cached (env : HubEnv) (reg : HubRegistry) (h : HubInstance)
    (hh : reg.hub = some h) : getHub env reg = (.ok h, reg) := by
  simp [getHub, hh]

/-- Whenever `get_hub` returns an instance, that instance is cached in the
resulting registry. -/
theorem getHub_sets_cache (env : HubEnv) (reg : HubRegistry) (h : HubInstance)
    (reg1 : HubRegistry) (hcall : getHub env reg = (.ok h, reg1)) :
    reg1.hub = some h := by
  unfold getHub at hcall
  cases hr : reg.hub with
  | some h0 =>
    rw [hr] at hcall
    simp only [Prod.mk.injEq, PyOutcome.ok.injEq] at hcall
    obtain ⟨rfl, rfl⟩ := hcall
    exact hr
  | none =>
    rw [hr] at hcall
    cases ht : reg.hubTy with
    | some t =>
      simp only [ht] at hcall
      cases t with
      | noneModule => simp [mkHubInstance] at hcall
      | fromHubAttr i =>
        simp only [mkHubInstance, Prod.mk.injEq, PyOutcome.ok.injEq] at hcall
        obtain ⟨rfl, rfl⟩ := hcall
        rfl
      | fromModule i =>
        simp only [mkHubInstance, Prod.mk.injEq, PyOutcome.ok.injEq] at hcall
        obtain ⟨rfl, rfl⟩ := hcall
        rfl
    | none =>
      simp only [ht] at hcall
      cases hd : getDefaultHub env with
      | none => simp [useHub, hd, mkHubInstance] at hcall
      | some b =>
        cases hb : b.hasHubAttr with
        | true =>
          simp only [useHub, hd, storedHubTy, hb, if_true, mkHubInstance,
            Prod.mk.injEq, PyOutcome.ok.injEq] at hcall
          obtain ⟨rfl, rfl⟩ := hcall
          rfl
        | false =>
          simp only [useHub, hd, storedHubTy, hb, Bool.false_eq_true, if_false,
            mkHubInstance, Prod.mk.injEq, PyOutcome.ok.injEq] at hcall
          obtain ⟨rfl, rfl⟩ := hcall
          rfl

/-- C9: `get_hub` is a lazy idempotent per-thread singleton accessor — a
cached instance is returned unchanged; a first call with no backend selected
runs default selection, constructs exactly one instance (one fresh serial) and
caches it; any call that returned an instance leaves the registry in a state
where the next call returns the same instance without constructing another.
`use_hub(backend)` drops any cached instance, forcing the next access to build
a fresh one, and stores the backend's `Hub` type when it exposes one, the
backend module itself otherwise. -/
theorem claim_hub_singleton (env : HubEnv) (reg : HubRegistry) :
    (∀ h, reg.hub = some h → getHub env reg = (.ok h, reg)) ∧
    (reg.hub = none → reg.hubTy = none →
      ∀ b, getDefaultHub env = some b →
        getHub env reg =
          (.ok ⟨storedHubTy b, reg.nextSerial⟩,
           ⟨some ⟨storedHubTy b, reg.nextSerial⟩, some (storedHubTy b),
            reg.nextSerial + 1⟩)) ∧
    (∀ h reg1, getHub env reg = (.ok h, reg1) → getHub env reg1 = (.ok h, reg1)) ∧
    (∀ b, useHub env reg (some b) = ⟨none, some (storedHubTy b), reg.nextSerial⟩) ∧
    (∀ b, b.hasHubAttr = true → storedHubTy b = .fromHubAttr b.id) ∧
    (∀ b, b.hasHubAttr = false → storedHubTy b = .fromModule b.id) ∧
    (∀ b, getHub env (useHub env reg (some b)) =
      (.ok ⟨storedHubTy b, reg.nextSerial⟩,
       ⟨some ⟨storedHubTy b, reg.nextSerial⟩, some (storedHubTy b),
        reg.nextSerial + 1⟩)) := by
  refine ⟨?_, ?_, ?_, ?_, ?_, ?_, ?_⟩
  · intro h hh
    exact getHub_cached env reg h hh
  · intro hh ht b hb
    cases hb2 : b.hasHubAttr <;>
      simp [getHub, hh, ht, useHub, hb, storedHubTy, hb2, mkHubInstance]
  · intro h reg1 hcall
    exact getHub_cached env reg1 h (getHub_sets_cache env reg h reg1 hcall)
  · intro b
    simp [useHub]
  · intro b hb
    simp [storedHubTy, hb]
  · intro b hb
    simp [storedHubTy, hb]
  · intro b
    cases hb2 : b.hasHubAttr <;>
      simp [getHub, useHub, storedHubTy, hb2, mkHubInstance]

/-- C9 witness: on a fresh registry with the high-priority backend available
and exposing a `Hub` type, the first access selects it, constructs serial 0,
and caches it. -/
theorem claim_hub_singleton_wit :
    getHub ⟨[⟨0, true⟩, ⟨1, false⟩]⟩ ⟨none, none, 0⟩ =
      (.ok ⟨.fromHubAttr 0, 0⟩,
       ⟨some ⟨.fromHubAttr 0, 0⟩, some (.fromHubAttr 0), 1⟩) := by
  have h := (claim_hub_singleton ⟨[⟨0, true⟩, ⟨1, false⟩]⟩ ⟨none, none, 0⟩).2.1
    rfl rfl ⟨0, true⟩ rfl
  simpa [storedHubTy] using h

end Guv
